import Mathlib

/-!
Shallow embedding of the notafter program (Go), second revision of main.go.

Times and durations are modelled as integers counting nanoseconds, matching
the representation used by the Go time package (time.Duration is an int64
nanosecond count; time.Time.Sub yields a time.Duration). Go division of two
durations truncates toward zero, which is Int.tdiv.

Strings are modelled as Lean strings. A Go error value is modelled as
Option String holding the text of err.Error().
-/

namespace Notafter

/-- One hour in nanoseconds: time.Hour in the Go time package. -/
def hourNs : Int := 3600000000000

/-- The constant expiryThreshold = 30 * 24 * time.Hour from main.go. -/
def expiryThreshold : Int := 30 * 24 * hourNs

/-- The function pluralize from main.go: returns noun for n == 1, noun+"s" otherwise. -/
def pluralize (n : Int) (noun : String) : String :=
  if n = 1 then noun else noun ++ "s"

/-- The body of expiryInfo from main.go, with the threshold constant abstracted
as a parameter (the spec treats the threshold as a single named configuration
constant). gap := end.Sub(now); the switch tests gap > threshold, gap < 0,
gap < 24h in order, and defaults to the day count gap / (24 * time.Hour). -/
def expiryInfoWith (threshold endTime now : Int) : String :=
  let gap := endTime - now
  if gap > threshold then "ok"
  else if gap < 0 then "already expired"
  else if gap < 24 * hourNs then "expires in less than a day"
  else
    let n := gap.tdiv (24 * hourNs)
    "expires in " ++ toString n ++ " " ++ pluralize n "day"

/-- The function expiryInfo from main.go, at the program threshold. -/
def expiryInfo (endTime now : Int) : String :=
  expiryInfoWith expiryThreshold endTime now

/-- The struct Item from main.go: domain, end (certificate expiry), err. -/
structure Item where
  domain : String
  endTime : Int
  err : Option String
deriving DecidableEq

/-- The method Item.needsNotify from main.go: true when err != nil; false when
end.Sub(now) > expiryThreshold; true otherwise. -/
def Item.needsNotify (i : Item) (now : Int) : Bool :=
  if i.err.isSome then true
  else if i.endTime - now > expiryThreshold then false
  else true

/-- The method Item.format from main.go: domain + ": " followed by the error
text when err != nil, and by expiryInfo(end, now) otherwise. -/
def Item.format (i : Item) (now : Int) : String :=
  i.domain ++ ": " ++
    (match i.err with
     | some e => e
     | none => expiryInfo i.endTime now)

/-- The function mailBody from main.go: a buffer receiving, for each item in
slice order, item.format(now) followed by one newline byte. -/
def mailBody (items : List Item) (now : Int) : String :=
  items.foldl (fun buf i => buf ++ i.format now ++ "\n") ""

/-- The generic function all from main.go: false at the first element failing
f, true when the slice is exhausted. -/
def all {E : Type} : List E → (E → Bool) → Bool
  | [], _ => true
  | v :: rest, f => if !(f v) then false else all rest f

/-- The aggregate decision taken in main (lines around wg.Wait): notification
is needed unless all items satisfy noNotify, i.e. unless every item has
needsNotify(now) false. -/
def notifyNeeded (items : List Item) (now : Int) : Bool :=
  !(all items (fun i => !(i.needsNotify now)))

/-- A peer certificate as the function check reads it: only NotAfter is used
by the program; subject and issuer stand for the fields check never inspects. -/
structure Cert where
  notAfter : Int
  subject : String
  issuer : String
deriving DecidableEq

/-- The post-dial part of the function check from main.go. The dial either
fails with an error (network failure, timeout, handshake failure), modelled
as Except.error, or succeeds and yields the peer certificate chain of the
connection state. check returns the zero time and the error on dial failure;
the zero time and the fixed error text "no peer certificates" on an empty
chain; and NotAfter of the first (leaf) certificate otherwise. -/
def check (dialResult : Except String (List Cert)) : Int × Option String :=
  match dialResult with
  | .error e => (0, some e)
  | .ok cs =>
    match cs with
    | [] => (0, some "no peer certificates")
    | leaf :: _ => (leaf.notAfter, none)

/-- Outcome of a run of main, abstracting process exit. -/
inductive MainOutcome where
  | usageExit
  | fatalError (msg : String)
  | okExit
deriving DecidableEq

/-- Exit status of each outcome: os.Exit(2) after the usage text, the nonzero
status of log.Fatal, and 0 on the normal paths. -/
def exitCode : MainOutcome → Nat
  | .usageExit => 2
  | .fatalError _ => 1
  | .okExit => 0

/-- Observable trace of one run: the outcome, the domains that were probed,
and the body handed to sendMail, when any was. -/
structure RunResult where
  outcome : MainOutcome
  probed : List String
  mailed : Option String
deriving DecidableEq

/-- The control flow of main from main.go after flag parsing. nargs is
flag.NArg(); stdinDomains is the result of domains(os.Stdin); probe gives
each domain the pair returned by check for it (the fan-out writes result i
into slot i and the barrier joins all workers, so the items slice equals the
in-order map of probe over the domain list); mailOk tells whether the
sendMail collaborator succeeds. -/
def runMain (nargs : Nat) (stdinDomains : Except String (List String))
    (probe : String → Int × Option String) (now : Int) (mailOk : Bool) :
    RunResult :=
  if nargs ≠ 1 then ⟨.usageExit, [], none⟩
  else
    match stdinDomains with
    | .error e => ⟨.fatalError e, [], none⟩
    | .ok ds =>
      if ds.length = 0 then ⟨.fatalError "no domains", [], none⟩
      else
        let items := ds.map (fun d => ⟨d, (probe d).1, (probe d).2⟩ : String → Item)
        if all items (fun i => !(i.needsNotify now)) then ⟨.okExit, ds, none⟩
        else
          let body := mailBody items now
          if mailOk then ⟨.okExit, ds, some body⟩
          else ⟨.fatalError "mail: exit status 1", ds, some body⟩

/-- Count of newline characters in a string, used to state the line structure
of the report body. -/
def countNL (s : String) : Nat := s.data.count '\n'

/-! Helper lemmas shared by the claim theorems. -/

theorem tdiv_eq_ediv_of_nonneg (a b : Int) (ha : 0 ≤ a) (hb : 0 ≤ b) :
    a.tdiv b = a / b := by
  obtain ⟨m, rfl⟩ := Int.eq_ofNat_of_zero_le ha
  obtain ⟨n, rfl⟩ := Int.eq_ofNat_of_zero_le hb
  rfl

theorem all_eq_list_all {E : Type} (l : List E) (f : E → Bool) :
    all l f = l.all f := by
  induction l with
  | nil => rfl
  | cons a t ih => cases h : f a <;> simp [all, h, ih]

theorem needsNotify_true_iff (i : Item) (now : Int) :
    i.needsNotify now = true ↔
      (i.err.isSome = true ∨ i.endTime - now ≤ expiryThreshold) := by
  rcases i with ⟨d, e, err⟩
  rcases err with _ | msg
  · by_cases h : e - now > expiryThreshold <;>
      simp [Item.needsNotify, h] <;> omega
  · simp [Item.needsNotify]

theorem notifyNeeded_true_iff (items : List Item) (now : Int) :
    notifyNeeded items now = true ↔ ∃ i ∈ items, i.needsNotify now = true := by
  simp [notifyNeeded, all_eq_list_all, List.all_eq_true]

theorem countNL_append (s t : String) : countNL (s ++ t) = countNL s + countNL t := by
  simp [countNL, String.data_append, List.count_append]

theorem countNL_expiryInfo (e now : Int) : countNL (expiryInfo e now) = 0 := by
  have hday : (24 : Int) * hourNs = 86400000000000 := by decide
  have hthr : expiryThreshold = 2592000000000000 := by decide
  simp only [expiryInfo, expiryInfoWith, hday, hthr]
  split_ifs with h1 h2 h3
  · decide
  · decide
  · decide
  · have h0 : (0 : Int) ≤ e - now := by omega
    have htd : (e - now).tdiv 86400000000000 = (e - now) / 86400000000000 :=
      tdiv_eq_ediv_of_nonneg _ _ h0 (by decide)
    rw [htd]
    have hq0 : 0 ≤ (e - now) / 86400000000000 := by omega
    obtain ⟨m, hm⟩ := Int.eq_ofNat_of_zero_le hq0
    have hm1 : 1 ≤ m := by omega
    have hm30 : m ≤ 30 := by omega
    rw [hm]
    interval_cases m <;> decide

theorem countNL_format (i : Item) (now : Int)
    (hd : ¬ '\n' ∈ i.domain.data)
    (he : ∀ e, i.err = some e → ¬ '\n' ∈ e.data) :
    countNL (i.format now) = 0 := by
  rcases i with ⟨d, en, err⟩
  rcases herr : err with _ | msg
  · simp only [Item.format, herr]
    rw [countNL_append, countNL_append]
    have h1 : countNL d = 0 := List.count_eq_zero.mpr hd
    have h2 : countNL ": " = 0 := by decide
    have h3 : countNL (expiryInfo en now) = 0 := countNL_expiryInfo en now
    simp only [countNL] at h1 h2 h3 ⊢
    omega
  · simp only [Item.format, herr]
    rw [countNL_append, countNL_append]
    have h1 : countNL d = 0 := List.count_eq_zero.mpr hd
    have h2 : countNL ": " = 0 := by decide
    have h3 : countNL msg = 0 := List.count_eq_zero.mpr (he msg (by rw [herr]))
    simp only [countNL] at h1 h2 h3 ⊢
    omega

theorem mailBody_data_go (items : List Item) (now : Int) :
    ∀ s : String,
      (items.foldl (fun buf i => buf ++ i.format now ++ "\n") s).data =
        s.data ++ (items.map fun i => (i.format now).data ++ ['\n']).flatten := by
  induction items with
  | nil => intro s; simp
  | cons a t ih =>
    intro s
    simp [List.foldl_cons, ih, String.data_append]

theorem mailBody_eq_join (items : List Item) (now : Int) :
    mailBody items now = String.join (items.map fun i => i.format now ++ "\n") := by
  apply String.ext
  rw [String.data_join, mailBody, mailBody_data_go items now ""]
  simp [List.map_map, Function.comp_def, String.data_append]

theorem countNL_mailBody (items : List Item) (now : Int)
    (hd : ∀ i ∈ items, ¬ '\n' ∈ i.domain.data)
    (he : ∀ i ∈ items, ∀ e, i.err = some e → ¬ '\n' ∈ e.data) :
    countNL (mailBody items now) = items.length := by
  induction items with
  | nil => rfl
  | cons a t ih =>
    have ha : countNL (a.format now) = 0 :=
      countNL_format a now (hd a (by simp)) (he a (by simp))
    have ht : countNL (mailBody t now) = t.length :=
      ih (fun i hi => hd i (by simp [hi])) (fun i hi => he i (by simp [hi]))
    simp only [countNL, mailBody, mailBody_data_go, List.map_cons,
      List.flatten_cons, String.data_append] at ha ht ⊢
    simp [List.count_append] at ha ht ⊢
    omega

theorem expiryInfo_eq_ok_iff (e now : Int) :
    expiryInfo e now = "ok" ↔ e - now > expiryThreshold := by
  have hday : (24 : Int) * hourNs = 86400000000000 := by decide
  have hthr : expiryThreshold = 2592000000000000 := by decide
  simp only [expiryInfo, expiryInfoWith, hday, hthr]
  split_ifs with h1 h2 h3
  · simp [hthr, h1]
  · constructor
    · intro h; exact absurd h (by decide)
    · omega
  · constructor
    · intro h; exact absurd h (by decide)
    · omega
  · constructor
    · intro h
      have hlen := congrArg String.length h
      rw [String.length_append, String.length_append, String.length_append] at hlen
      have : ("expires in ".length : Nat) = 11 := by decide
      have hok : ("ok".length : Nat) = 2 := by decide
      omega
    · omega

theorem runMain_noop (ds : List String) (probe : String → Int × Option String)
    (now : Int) (mailOk : Bool) (hne : ds ≠ [])
    (hall : all (ds.map fun d => (⟨d, (probe d).1, (probe d).2⟩ : Item))
        (fun i => !(i.needsNotify now)) = true) :
    runMain 1 (.ok ds) probe now mailOk = ⟨.okExit, ds, none⟩ := by
  have hlen : ¬ ds.length = 0 := by simpa [List.length_eq_zero] using hne
  simp [runMain, hlen, hall]

/-! Claim theorems. -/

/-- C1: for every threshold of at least one day, every gap and every
error-presence flag, the classification computed by expiryInfo together with
Item.format is total and returns exactly the bucket of the spec table: the
error text verbatim when an error is present, "ok" when gap > threshold,
"already expired" when gap < 0, "expires in less than a day" when
0 <= gap < 24h, and the day-count string when 24h <= gap <= threshold. -/
theorem expiry_classification_table (T endTime now : Int) (hT : 24 * hourNs ≤ T) :
    (endTime - now > T → expiryInfoWith T endTime now = "ok")
    ∧ (endTime - now < 0 → expiryInfoWith T endTime now = "already expired")
    ∧ (0 ≤ endTime - now → endTime - now < 24 * hourNs →
        expiryInfoWith T endTime now = "expires in less than a day")
    ∧ (24 * hourNs ≤ endTime - now → endTime - now ≤ T →
        expiryInfoWith T endTime now =
          "expires in " ++ toString ((endTime - now).tdiv (24 * hourNs)) ++ " " ++
            pluralize ((endTime - now).tdiv (24 * hourNs)) "day")
    ∧ (∀ i : Item, ∀ e, i.err = some e → i.format now = i.domain ++ ": " ++ e)
    ∧ (∀ i : Item, i.err = none →
        i.format now = i.domain ++ ": " ++ expiryInfo i.endTime now) := by
  have hh : hourNs = 3600000000000 := rfl
  refine ⟨?_, ?_, ?_, ?_, ?_, ?_⟩
  · intro h
    simp only [expiryInfoWith]
    rw [if_pos h]
  · intro h
    simp only [expiryInfoWith]
    rw [if_neg (by omega), if_pos h]
  · intro h0 h24
    simp only [expiryInfoWith]
    rw [if_neg (by omega), if_neg (by omega), if_pos h24]
  · intro h24 hT2
    simp only [expiryInfoWith]
    rw [if_neg (by omega), if_neg (by omega), if_neg (by omega)]
  · intro i e he
    simp [Item.format, he]
  · intro i he
    simp [Item.format, he]

/-- C1 witness: the table applied at the program threshold to a gap of ten
days, landing in the day-count bucket. -/
theorem expiry_classification_table_witness :
    expiryInfoWith expiryThreshold 864000000000000 0 =
      "expires in " ++ toString ((864000000000000 - 0 : Int).tdiv (24 * hourNs)) ++ " " ++
        pluralize ((864000000000000 - 0 : Int).tdiv (24 * hourNs)) "day" :=
  (expiry_classification_table expiryThreshold 864000000000000 0 (by decide)).2.2.2.1
    (by decide) (by decide)

/-- C4 counterexample: at a gap exactly equal to the threshold the code does
not classify "ok" (it classifies "expires in 30 days") and the item does
trigger notification, contrary to the claim. -/
theorem threshold_boundary_counterexample :
    Item.needsNotify ⟨"a.example", expiryThreshold, none⟩ 0 = true
    ∧ expiryInfo expiryThreshold 0 ≠ "ok"
    ∧ expiryInfo expiryThreshold 0 = "expires in 30 days" := by
  refine ⟨by decide, by decide, by decide⟩

/-- C4 amended: for every error-free probe result whose gap is exactly the
threshold, the classification is "expires in 30 days" (the day-count bucket
with N = 30), not "ok", and the result does trigger notification; "ok" and
non-notification require gap strictly greater than the threshold. -/
theorem threshold_boundary_amended (endTime now : Int)
    (h : endTime - now = expiryThreshold) :
    expiryInfo endTime now = "expires in 30 days"
    ∧ ∀ d : String, Item.needsNotify ⟨d, endTime, none⟩ now = true := by
  constructor
  · simp only [expiryInfo, expiryInfoWith, h]
    decide
  · intro d
    simp [Item.needsNotify, h]

/-- C4 amended witness: the amended statement at gap exactly the threshold. -/
theorem threshold_boundary_amended_witness :
    expiryInfo expiryThreshold 0 = "expires in 30 days"
    ∧ Item.needsNotify ⟨"a.example", expiryThreshold, none⟩ 0 = true :=
  ⟨(threshold_boundary_amended expiryThreshold 0 (by decide)).1,
   (threshold_boundary_amended expiryThreshold 0 (by decide)).2 "a.example"⟩

/-- C5: a gap of exactly zero classifies "expires in less than a day", and
every strictly negative gap classifies "already expired". -/
theorem gap_zero_and_negative_boundary (endTime now : Int) :
    (endTime - now = 0 → expiryInfo endTime now = "expires in less than a day")
    ∧ (endTime - now < 0 → expiryInfo endTime now = "already expired") := by
  have hh : hourNs = 3600000000000 := rfl
  have hthr : expiryThreshold = 2592000000000000 := by decide
  constructor
  · intro h
    simp only [expiryInfo, expiryInfoWith, h]
    decide
  · intro h
    simp only [expiryInfo, expiryInfoWith]
    rw [if_neg (by omega), if_pos h]

/-- C5 witness: gap zero, and the one-hour-past gap of spec scenario 4. -/
theorem gap_zero_and_negative_boundary_witness :
    expiryInfo 0 0 = "expires in less than a day"
    ∧ expiryInfo (-3600000000000) 0 = "already expired" :=
  ⟨(gap_zero_and_negative_boundary 0 0).1 (by decide),
   (gap_zero_and_negative_boundary (-3600000000000) 0).2 (by decide)⟩

/-- C6: for 24h <= gap <= threshold the classification is "expires in N
day(s)" with N the floor of gap / 24h (truncating division agrees with floor
division here), singular "day" exactly when N = 1 and "days" otherwise. -/
theorem day_bucket_string (endTime now : Int)
    (h1 : 24 * hourNs ≤ endTime - now) (h2 : endTime - now ≤ expiryThreshold) :
    expiryInfo endTime now =
      "expires in " ++ toString ((endTime - now) / (24 * hourNs)) ++ " " ++
        (if (endTime - now) / (24 * hourNs) = 1 then "day" else "days")
    ∧ (endTime - now).tdiv (24 * hourNs) = (endTime - now) / (24 * hourNs) := by
  have hh : hourNs = 3600000000000 := rfl
  have hthr : expiryThreshold = 2592000000000000 := by decide
  have h0 : (0 : Int) ≤ endTime - now := by omega
  have htd : (endTime - now).tdiv (24 * hourNs) = (endTime - now) / (24 * hourNs) :=
    tdiv_eq_ediv_of_nonneg _ _ h0 (by decide)
  refine ⟨?_, htd⟩
  simp only [expiryInfo, expiryInfoWith]
  rw [if_neg (by omega), if_neg (by omega), if_neg (by omega), htd]
  by_cases hn : (endTime - now) / (24 * hourNs) = 1
  · rw [hn]
    decide
  · rw [if_neg hn]
    simp only [pluralize, if_neg hn]
    rw [(by decide : ("day" ++ "s" : String) = "days")]

/-- C6 witness: a gap of exactly ten days yields "expires in 10 days". -/
theorem day_bucket_string_witness :
    expiryInfo 864000000000000 0 = "expires in 10 days" := by
  have h := (day_bucket_string 864000000000000 0 (by decide) (by decide)).1
  rw [h]
  decide

/-- C2: notifyNeeded holds exactly when some probe result carries an error or
has gap at most the threshold; when no result does, the run takes the no-op
path: no body is handed to sendMail and the process exits 0. -/
theorem notify_decision_iff_and_noop (items : List Item) (ds : List String)
    (probe : String → Int × Option String) (now : Int) (mailOk : Bool)
    (hne : ds ≠ []) :
    (notifyNeeded items now = true ↔
      ∃ i ∈ items, i.err.isSome = true ∨ i.endTime - now ≤ expiryThreshold)
    ∧ (notifyNeeded (ds.map fun d => (⟨d, (probe d).1, (probe d).2⟩ : Item)) now = false →
        runMain 1 (.ok ds) probe now mailOk = ⟨.okExit, ds, none⟩
        ∧ exitCode (runMain 1 (.ok ds) probe now mailOk).outcome = 0) := by
  constructor
  · rw [notifyNeeded_true_iff]
    constructor
    · rintro ⟨i, hi, h⟩
      exact ⟨i, hi, (needsNotify_true_iff i now).1 h⟩
    · rintro ⟨i, hi, h⟩
      exact ⟨i, hi, (needsNotify_true_iff i now).2 h⟩
  · intro h
    have hall : all (ds.map fun d => (⟨d, (probe d).1, (probe d).2⟩ : Item))
        (fun i => !(i.needsNotify now)) = true := by
      simp only [notifyNeeded] at h
      simpa using h
    have hrm := runMain_noop ds probe now mailOk hne hall
    refine ⟨hrm, ?_⟩
    rw [hrm]
    rfl

/-- C2 witness: a single domain whose certificate expires in sixty days is a
no-op run with exit status 0 and nothing mailed. -/
theorem notify_decision_iff_and_noop_witness :
    runMain 1 (.ok ["a.example"]) (fun _ => (5184000000000000, none)) 0 true =
        ⟨.okExit, ["a.example"], none⟩
    ∧ exitCode (runMain 1 (.ok ["a.example"])
        (fun _ => (5184000000000000, none)) 0 true).outcome = 0 :=
  (notify_decision_iff_and_noop [] ["a.example"]
      (fun _ => (5184000000000000, none)) 0 true (by decide)).2 (by decide)

/-- C3: when some item needs notification, notifyNeeded is true and the
report body is exactly the in-order concatenation of one newline-terminated
line "<domain>: <classification>" per item; with no newline inside any domain
or error text, the body holds exactly one newline per input item. -/
theorem report_body_structure (items : List Item) (now : Int)
    (hne : items ≠ []) (hnn : ∃ i ∈ items, i.needsNotify now = true)
    (hd : ∀ i ∈ items, ¬ '\n' ∈ i.domain.data)
    (he : ∀ i ∈ items, ∀ e, i.err = some e → ¬ '\n' ∈ e.data) :
    notifyNeeded items now = true
    ∧ mailBody items now = String.join (items.map fun i => i.format now ++ "\n")
    ∧ countNL (mailBody items now) = items.length :=
  ⟨(notifyNeeded_true_iff items now).2 hnn, mailBody_eq_join items now,
   countNL_mailBody items now hd he⟩

/-- C3 witness: the two-domain scenario of the spec (one good domain, one
timeout) rendered as exactly two lines in input order. -/
theorem report_body_structure_witness :
    notifyNeeded [⟨"a.example", 5184000000000000, none⟩,
        ⟨"b.example", 0, some "timeout"⟩] 0 = true
    ∧ mailBody [⟨"a.example", 5184000000000000, none⟩,
          ⟨"b.example", 0, some "timeout"⟩] 0 =
        String.join (([⟨"a.example", 5184000000000000, none⟩,
            ⟨"b.example", 0, some "timeout"⟩] : List Item).map fun i => i.format 0 ++ "\n")
    ∧ countNL (mailBody [⟨"a.example", 5184000000000000, none⟩,
          ⟨"b.example", 0, some "timeout"⟩] 0) =
        ([⟨"a.example", 5184000000000000, none⟩,
            ⟨"b.example", 0, some "timeout"⟩] : List Item).length :=
  report_body_structure
    [⟨"a.example", 5184000000000000, none⟩, ⟨"b.example", 0, some "timeout"⟩] 0
    (by decide) (by decide) (by decide)
    (by
      intro i hi e hei
      rcases List.mem_cons.mp hi with h | h
      · subst h
        exact Option.noConfusion hei
      · rcases List.mem_singleton.mp h with rfl
        rcases Option.some.inj hei with rfl
        decide)

/-- C7: check fails with the dial error on dial failure; after a successful
handshake it fails with exactly "no peer certificates" on an empty chain and
otherwise returns notAfter of the first (leaf) certificate, inspecting no
other certificate or field; the error component is absent exactly on the
successful non-empty-chain outcomes. -/
theorem check_leaf_only :
    (∀ e, check (.error e) = (0, some e))
    ∧ check (.ok []) = (0, some "no peer certificates")
    ∧ (∀ leaf rest, check (.ok (leaf :: rest)) = (leaf.notAfter, none))
    ∧ (∀ leaf1 leaf2 rest1 rest2, leaf1.notAfter = leaf2.notAfter →
        check (.ok (leaf1 :: rest1)) = check (.ok (leaf2 :: rest2)))
    ∧ (∀ r : Except String (List Cert),
        (check r).2 = none ↔ ∃ leaf rest, r = .ok (leaf :: rest)) := by
  refine ⟨fun e => rfl, rfl, fun leaf rest => rfl, ?_, ?_⟩
  · intro l1 l2 r1 r2 h
    simp [check, h]
  · intro r
    rcases r with e | cs
    · simp [check]
    · rcases cs with _ | ⟨a, t⟩
      · simp [check]
      · exact ⟨fun _ => ⟨a, t, rfl⟩, fun _ => rfl⟩

/-- C7 witness: two chains agreeing on the leaf notAfter but differing in
every other field and in depth give the same check outcome. -/
theorem check_leaf_only_witness :
    check (.ok [(⟨1700000000000000000, "leaf-subject", "leaf-issuer"⟩ : Cert),
        ⟨5, "mid-subject", "mid-issuer"⟩]) =
      check (.ok [(⟨1700000000000000000, "other-subject", "other-issuer"⟩ : Cert)]) :=
  check_leaf_only.2.2.2.1 _ _ _ _ rfl

/-- C8: with an empty domain list the run aborts with the "no domains"
diagnostic and a non-zero exit status, probing nothing and mailing nothing. -/
theorem empty_domains_fatal (probe : String → Int × Option String) (now : Int)
    (mailOk : Bool) :
    runMain 1 (.ok []) probe now mailOk = ⟨.fatalError "no domains", [], none⟩
    ∧ exitCode (runMain 1 (.ok []) probe now mailOk).outcome ≠ 0 := by
  refine ⟨rfl, ?_⟩
  show exitCode (⟨.fatalError "no domains", [], none⟩ : RunResult).outcome ≠ 0
  decide

/-- C9: rendering the report body is a deterministic function of the items
and the time; identical inputs give byte-identical bodies. -/
theorem render_deterministic (items1 items2 : List Item) (now1 now2 : Int)
    (h1 : items1 = items2) (h2 : now1 = now2) :
    mailBody items1 now1 = mailBody items2 now2 := by
  rw [h1, h2]

/-- C9 witness: two renderings of the same one-item input agree. -/
theorem render_deterministic_witness :
    mailBody [⟨"a.example", 0, some "timeout"⟩] 5 =
      mailBody [⟨"a.example", 0, some "timeout"⟩] 5 :=
  render_deterministic _ _ _ _ rfl rfl

/-- C10: an item escapes notification exactly when it has no error and its
rendered classification is the "ok" bucket; any other classification forces
notification. -/
theorem needsNotify_agrees_with_ok (i : Item) (now : Int) :
    i.needsNotify now = false ↔
      (i.err = none ∧ expiryInfo i.endTime now = "ok") := by
  constructor
  · intro h
    have hn : ¬ (i.needsNotify now = true) := by simp [h]
    rw [needsNotify_true_iff] at hn
    push_neg at hn
    obtain ⟨h1, h2⟩ := hn
    have herr : i.err = none := by
      cases he : i.err
      · rfl
      · rw [he] at h1
        simp at h1
    exact ⟨herr, (expiryInfo_eq_ok_iff _ _).2 (by omega)⟩
  · rintro ⟨h1, h2⟩
    have hgap := (expiryInfo_eq_ok_iff i.endTime now).1 h2
    simp [Item.needsNotify, h1, hgap]

/-- C10 witness: a sixty-day gap classifies "ok" and needs no notification. -/
theorem needsNotify_agrees_with_ok_witness :
    Item.needsNotify ⟨"a.example", 5184000000000000, none⟩ 0 = false :=
  (needsNotify_agrees_with_ok ⟨"a.example", 5184000000000000, none⟩ 0).2
    ⟨rfl, by decide⟩

end Notafter
